import Mathlib

/-!
Verification of the PokerLearn hand-history parsing pipeline.

This file is a shallow embedding of the core of the repository:
`src/parse_files.py` (line classifier, field extractors and the
hand/round state machine `parse_lines`) and `src/models.py`
(the entity model and `Player.recalculate_stats`).

Python strings are modelled by Lean `String`; the handful of string
operations the parser uses (`split`, `rsplit`, `strip`, `replace`,
`in`, `startswith`, `int(...)`) are re-implemented below on character
lists by structural recursion so that every definition evaluates
inside the kernel.  Database sessions are modelled by a pair of
stores (last committed state, current in-transaction state);
`commit` copies current over committed and `rollback` does the
reverse, which is how the per-line `try/except/rollback` policy of
`parse_lines` is represented.  A Python function that can raise an
exception that escapes to its caller is modelled with an `Option`
result (`none` = exception); handlers that catch every exception
internally return the store unchanged from the failure point on,
exactly at the program point where the exception is raised.
-/

namespace PokerLearn

/-! ## Python string primitives -/

/-- If `cs` begins with `sep`, return the remainder of `cs` after `sep`. -/
def matchSep : List Char → List Char → Option (List Char)
  | [], cs => some cs
  | _, [] => none
  | p :: ps, c :: cs => if p == c then matchSep ps cs else none

/-- Worker for `pySplitOn`: splits at every non-overlapping, left-to-right
occurrence of `sep`, keeping empty segments, like Python `str.split(sep)`.
`fuel` starts at the length of the list plus one, so it never runs out. -/
def splitCharsAux (sep : List Char) : Nat → List Char → List Char → List (List Char)
  | 0, acc, _ => [acc.reverse]
  | _ + 1, acc, [] => [acc.reverse]
  | fuel + 1, acc, c :: rest =>
    match matchSep sep (c :: rest) with
    | some remaining => acc.reverse :: splitCharsAux sep fuel [] remaining
    | none => splitCharsAux sep fuel (c :: acc) rest

/-- Python `s.split(sep)` for a non-empty separator (every call site of the
parser passes a non-empty literal separator). -/
def pySplitOn (s sep : String) : List String :=
  if sep == "" then [s]
  else (splitCharsAux sep.data (s.data.length + 1) [] s.data).map (fun cs => String.mk cs)

/-- Worker for `pyContains`. -/
def containsAux (sub : List Char) : List Char → Bool
  | [] => (matchSep sub []).isSome
  | c :: cs => (matchSep sub (c :: cs)).isSome || containsAux sub cs

/-- Python `sub in s` (substring test). -/
def pyContains (s sub : String) : Bool := containsAux sub.data s.data

/-- Python `s.startswith(t)`. -/
def pyStartsWith (s t : String) : Bool := (matchSep t.data s.data).isSome

/-- The characters Python `str.strip()` removes. -/
def isPySpace (c : Char) : Bool :=
  c == ' ' || c == '\t' || c == '\n' || c == '\r' || c == '\x0b' || c == '\x0c'

/-- Python `s.strip()`. -/
def pyStrip (s : String) : String :=
  String.mk (((s.data.dropWhile isPySpace).reverse.dropWhile isPySpace).reverse)

/-- Python `sep.join(parts)`. -/
def joinSep (sep : String) : List String → String
  | [] => ""
  | p :: rest => rest.foldl (fun acc q => acc ++ sep ++ q) p

/-- Python `s.replace(old, new)` for a non-empty `old` (the parser only ever
replaces the thousands separator `","`). -/
def pyReplace (s old new : String) : String := joinSep new (pySplitOn s old)

/-- Python `s.rsplit(sep, 1)[0]`: everything before the last occurrence of
`sep`, or the whole string when `sep` does not occur.  (None of the action
keywords used as separators has a self-overlap, so the rightmost occurrence
coincides with the last of the left-to-right occurrences found by
`pySplitOn`.) -/
def pyRsplitBefore (s sep : String) : String :=
  let parts := pySplitOn s sep
  if parts.length ≤ 1 then s else joinSep sep parts.dropLast

/-- Numeric value of a decimal digit character. -/
def digitVal (c : Char) : Nat := c.toNat - 48

/-- Python `int(s)`: strips whitespace, accepts an optional sign followed by
at least one digit, and raises `ValueError` (modelled as `none`) otherwise. -/
def pyInt (s : String) : Option Int :=
  let t := (pyStrip s).data
  let signedDigits : Int × List Char :=
    match t with
    | '-' :: rest => (-1, rest)
    | '+' :: rest => (1, rest)
    | _ => (1, t)
  match signedDigits with
  | (sign, ds) =>
    if ds.isEmpty || !(ds.all Char.isDigit) then none
    else some (sign * ((ds.foldl (fun n c => n * 10 + digitVal c) 0 : Nat) : Int))

/-- Python `sum(...)` over a list of SQL `Integer` column values, which are
nullable: summing a `NULL` (`none`) raises `TypeError`, modelled as `none`. -/
def pySum : List (Option Int) → Option Int
  | [] => some 0
  | none :: _ => none
  | some a :: rest => (pySum rest).map (fun s => a + s)

/-! ## Data model (src/models.py)

Only the columns the parser and the stat aggregator read or write are
carried; relationship attributes (`Player.actions`, `Round.actions`, ...)
are realised by filtering the corresponding table on the foreign key.
Autoincrement primary keys are modelled as `table length + 1` at row
creation.  `Pot`/`PotWinner` and the JSON snapshot columns of `Round` are
never touched by the parsing pipeline and are omitted. -/

/-- A row of `hands` (`models.Hand`). -/
structure Hand where
  id : Nat
  game_id : Nat
  hand_number : String
  small_blind : Option Int
  big_blind_value : Option Int
deriving DecidableEq

/-- A row of `rounds` (`models.Round`). -/
structure Round where
  id : Nat
  hand_id : Nat
  round_number : Nat
  round_name : String
deriving DecidableEq

/-- A row of `players` (`models.Player`).  `final_chip_count` is a nullable
column with no default; `big_blinds_remaining` is a `Float` column, modelled
as an exact rational. -/
structure Player where
  id : Nat
  name : String
  game_id : Nat
  seat_number : Int
  chips_start : Int
  total_chips_won : Int
  total_chips_lost : Int
  final_chip_count : Option Int
  is_active : Bool
  total_hands_played : Int
  vpip_count : Int
  pfr_count : Int
  uopfr_count : Int
  big_blinds_remaining : Rat
deriving DecidableEq

/-- A row of `player_actions` (`models.PlayerAction`).  `amount` is a nullable
`Integer` column: `process_player_action_line` stores whatever
`extract_amount` returned, which can be `None`. -/
structure PlayerAction where
  round_id : Nat
  player_id : Nat
  action : String
  amount : Option Int
  position : Option String
  is_all_in : Bool
deriving DecidableEq

/-- A row of `board_cards` (`models.BoardCard`); the column is declared
`String(2)` in the source.  `card_position`, `suit` and `rank` are never
written by the parser and are omitted. -/
structure BoardCard where
  round_id : Nat
  card : String
deriving DecidableEq

/-- A `Player` as freshly constructed by the parser:
`Player(name=..., game_id=..., seat_number=..., chips_start=...)` with the
column defaults of `models.py` for every other field (`final_chip_count`
has no default and stays `NULL`). -/
def newPlayer (id : Nat) (name : String) (game_id : Nat) (seat_number : Int)
    (chips_start : Int) : Player :=
  { id := id, name := name, game_id := game_id, seat_number := seat_number,
    chips_start := chips_start, total_chips_won := 0, total_chips_lost := 0,
    final_chip_count := none, is_active := true, total_hands_played := 0,
    vpip_count := 0, pfr_count := 0, uopfr_count := 0, big_blinds_remaining := 0 }

/-- A `PlayerAction` as constructed by the parser: `position` is never passed
(stays `NULL`) and `is_all_in` keeps its default `False`. -/
def mkAction (round_id player_id : Nat) (action : String) (amount : Option Int) :
    PlayerAction :=
  { round_id := round_id, player_id := player_id, action := action,
    amount := amount, position := none, is_all_in := false }

/-! ## Store and session -/

/-- The relational store: one list per table, in insertion order (the `games`
table is not needed by any claim; `parse_lines` receives the surrounding
game's id as a plain argument). -/
structure DB where
  hands : List Hand
  rounds : List Round
  players : List Player
  actions : List PlayerAction
  board_cards : List BoardCard
deriving DecidableEq

def DB.empty : DB := { hands := [], rounds := [], players := [], actions := [],
                       board_cards := [] }

/-- A SQLAlchemy session: the state at the last commit and the current
in-transaction state (queries see the current state thanks to autoflush). -/
structure Sess where
  committed : DB
  current : DB
deriving DecidableEq

def Sess.empty : Sess := { committed := DB.empty, current := DB.empty }

/-- `db.commit()`. -/
def Sess.commit (s : Sess) : Sess := { committed := s.current, current := s.current }

/-- `db.rollback()`: discard everything since the last commit. -/
def Sess.rollback (s : Sess) : Sess := { committed := s.committed, current := s.committed }

/-- `db.query(Player).filter_by(name=name).first()` — the lookup filters on
the name column alone. -/
def findPlayer (db : DB) (name : String) : Option Player :=
  db.players.find? (fun p => p.name == name)

/-- In-place mutation of the player row with id `pid` (attribute assignment
on a session-attached ORM object). -/
def DB.updatePlayer (db : DB) (pid : Nat) (f : Player → Player) : DB :=
  { db with players := db.players.map (fun q => if q.id == pid then f q else q) }

/-- In-place mutation of the hand row with id `hid`. -/
def DB.updateHand (db : DB) (hid : Nat) (f : Hand → Hand) : DB :=
  { db with hands := db.hands.map (fun h => if h.id == hid then f h else h) }

/-! ## Field extractors (src/parse_files.py) -/

/-- The `ROUND_NAMES` table, with its `dict.get` default `f"Round {n}"`. -/
def ROUND_NAMES (n : Nat) : String :=
  match n with
  | 1 => "Pre-Flop"
  | 2 => "Flop"
  | 3 => "Turn"
  | 4 => "River"
  | 5 => "Showdown"
  | _ => "Round " ++ toString n

/-- `extract_amount`: bracketed token first, then the ante form, else 0;
any parse error is caught, logged and turned into `None`. -/
def extract_amount (text : String) : Option Int :=
  if pyContains text "[" && pyContains text "]" then
    pyInt (pyReplace (((pySplitOn ((pySplitOn text "[").getD 1 "") " ").headD "")) "," "")
  else if pyContains text "posted ante" then
    match (pySplitOn text "ante of").get? 1 with
    | none => none
    | some t => pyInt (pyReplace ((pySplitOn t "Tournament").headD "") "," "")
  else some 0

/-- The action keyword list of `process_player_action_line` (the same list
literal also appears in the dispatch of `parse_lines`). -/
def action_keywords : List String :=
  ["re-raises", "posts", "calls", "raises", "folds", "posted ante"]

/-- `extract_player_name_and_action`: the first keyword (in list order) that
occurs in the line wins; the player name is everything before the last
occurrence of that keyword, stripped. -/
def extract_player_name_and_action (line : String) (ks : List String) :
    Option (String × String) :=
  match ks.find? (fun action => pyContains line action) with
  | some action => some (pyStrip (pyRsplitBefore line action), action)
  | none => none

/-- `extract_blinds`: the token two places after `"Small"` and the token two
places after `"Big"`; any lookup or parse failure is caught and yields
`(None, None)`. -/
def extract_blinds (line : String) : Option Int × Option Int :=
  let parts := pySplitOn line " "
  match parts.findIdx? (fun t => t == "Small") with
  | none => (none, none)
  | some i =>
    match (parts.get? (i + 2)).bind pyInt with
    | none => (none, none)
    | some sb =>
      match parts.findIdx? (fun t => t == "Big") with
      | none => (none, none)
      | some j =>
        match (parts.get? (j + 2)).bind pyInt with
        | none => (none, none)
        | some bb => (some sb, some bb)

/-! ## Line handlers (src/parse_files.py)

Each handler takes the pieces of state machine state it reads
(`hand`, `round_entry`) as `Option`s, because the Python locals can in
principle be `None`; an attribute access on `None` raises at exactly the
program point where the model consults the `Option`.  The `game_number`
parameter of the Python handlers only feeds log messages and is omitted.
A handler whose exceptions escape to `parse_lines` returns `Option Sess`
(`none` = exception, the caller rolls back); a handler with an internal
catch-all returns `Sess` directly, keeping every mutation made before the
failure point. -/

/-- `process_game_start_line`: extract the hand number after `"#"` and before
`"starts"`, insert the `Hand` row and commit.  `none` would only arise
without a `"#"` in the line, which the dispatch guard rules out. -/
def process_game_start_line (line : String) (game_id : Nat) (s : Sess) :
    Option (Hand × Sess) :=
  match (pySplitOn line "#").get? 1 with
  | none => none
  | some t =>
    let hand_number := pyStrip ((pySplitOn t "starts").headD "")
    let hand : Hand := { id := s.current.hands.length + 1, game_id := game_id,
                         hand_number := hand_number, small_blind := none,
                         big_blind_value := none }
    some (hand, Sess.commit { s with current :=
      { s.current with hands := s.current.hands ++ [hand] } })

/-- `create_new_round`: insert a `Round` row named via `ROUND_NAMES` and
commit. -/
def create_new_round (hand_id : Nat) (round_number : Nat) (s : Sess) :
    Round × Sess :=
  let new_round : Round := { id := s.current.rounds.length + 1, hand_id := hand_id,
                             round_number := round_number,
                             round_name := ROUND_NAMES round_number }
  (new_round, Sess.commit { s with current :=
    { s.current with rounds := s.current.rounds ++ [new_round] } })

/-- The running statistics update at the end of `process_player_action_line`:
`calls`/`raises`/`re-raises` increment VPIP; on the Pre-Flop round,
`raises`/`re-raises` increment PFR and exactly `raises` increments UOPFR. -/
def update_action_stats (q : Player) (action : String) (round_name : String) : Player :=
  if action == "re-raises" || action == "calls" || action == "raises" then
    let q1 := { q with vpip_count := q.vpip_count + 1 }
    if round_name == "Pre-Flop" then
      let q2 := { q1 with pfr_count := q1.pfr_count +
        (if action == "re-raises" || action == "raises" then 1 else 0) }
      { q2 with uopfr_count := q2.uopfr_count +
        (if action == "raises" then 1 else 0) }
    else q1
  else q

/-- `process_player_action_line`.  All exceptions are caught internally, so
the session keeps whatever had been done before the failure point:
an empty or missing player name aborts before any mutation; a missing
player row is created (with `seat_number=-1`, `chips_start=0`) and
committed; the `PlayerAction` is then added (uncommitted) with whatever
`extract_amount` produced — possibly `NULL` — and the running statistics
of the player row are updated in the session. -/
def process_player_action_line (line : String) (round_entry : Option Round)
    (hand : Option Hand) (s : Sess) : Sess :=
  match extract_player_name_and_action line action_keywords with
  | none => s
  | some (player_name, action) =>
    if player_name == "" then s
    else
      let amount := extract_amount line
      let got : Option (Player × Sess) :=
        match findPlayer s.current player_name with
        | some p => some (p, s)
        | none =>
          match hand with
          | none => none
          | some h =>
            let p := newPlayer (s.current.players.length + 1) player_name h.game_id (-1) 0
            some (p, Sess.commit { s with current :=
              { s.current with players := s.current.players ++ [p] } })
      match got with
      | none => s
      | some (player_record, s1) =>
        match round_entry with
        | none => s1
        | some r =>
          let s2 := { s1 with current := { s1.current with actions :=
            s1.current.actions ++ [mkAction r.id player_record.id action amount] } }
          match hand with
          | none => s2
          | some _ =>
            { s2 with current := s2.current.updatePlayer player_record.id
                        (fun q => update_action_stats q action r.round_name) }

/-- `process_show_action_line`: if a player row with the extracted name
exists, add a `shows` action with amount 0; otherwise log and do nothing
(a player is never created here). -/
def process_show_action_line (line : String) (round_entry : Option Round)
    (s : Sess) : Sess :=
  let player_name := pyStrip ((pySplitOn line "shows").headD "")
  match findPlayer s.current player_name with
  | some player_record =>
    match round_entry with
    | none => s
    | some r =>
      { s with current := { s.current with actions :=
        s.current.actions ++ [mkAction r.id player_record.id "shows" (some 0)] } }
  | none => s

/-- The parsing stage of `process_seat_line`: seat number from the second
token before `": "`, player name before `" ("`, chip count up to the first
space inside the parenthesis, commas stripped. -/
def parse_seat_line (line : String) : Option (Int × String × Int) :=
  let parts := pySplitOn line ": "
  let seat_info := pySplitOn (parts.headD "") " "
  match (seat_info.get? 1).bind pyInt with
  | none => none
  | some seat =>
    match parts.get? 1 with
    | none => none
    | some p1 =>
      let player_info := pySplitOn p1 " ("
      let player := pyStrip (player_info.headD "")
      match player_info.get? 1 with
      | none => none
      | some chi =>
        match pyInt (pyReplace ((pySplitOn chi " ").headD "") "," "") with
        | none => none
        | some chips => some (seat, player, chips)

/-- `process_seat_line`.  Exceptions are caught internally: a parse failure
leaves the store unchanged; otherwise the player is looked up by name and
created (committed) only when missing, and a `seat` action recording the
parsed chip count is added. -/
def process_seat_line (line : String) (hand : Option Hand)
    (round_entry : Option Round) (s : Sess) : Sess :=
  match parse_seat_line line with
  | none => s
  | some (seat, player, chips) =>
    let got : Option (Player × Sess) :=
      match findPlayer s.current player with
      | some p => some (p, s)
      | none =>
        match hand with
        | none => none
        | some h =>
          let p := newPlayer (s.current.players.length + 1) player h.game_id seat chips
          some (p, Sess.commit { s with current :=
            { s.current with players := s.current.players ++ [p] } })
    match got with
    | none => s
    | some (player_record, s1) =>
      match round_entry with
      | none => s1
      | some r =>
        { s1 with current := { s1.current with actions :=
          s1.current.actions ++ [mkAction r.id player_record.id "seat" (some chips)] } }

/-- `process_dealing_line`: store the whole bracket content as a single
`BoardCard` row.  No internal catch: a line without `"["` raises an
`IndexError` that escapes to `parse_lines`. -/
def process_dealing_line (line : String) (round_entry : Option Round)
    (hand : Option Hand) (s : Sess) : Option Sess :=
  match (pySplitOn line "[").get? 1 with
  | none => none
  | some rest =>
    let card := (pySplitOn rest "]").headD ""
    match round_entry with
    | none => none
    | some r =>
      let s1 := { s with current := { s.current with board_cards :=
        s.current.board_cards ++ [{ round_id := r.id, card := card : BoardCard }] } }
      match hand with
      | none => none
      | some _ => some s1

/-- `process_player_leaves_line`: looks the player up and logs; it mutates
nothing.  A line in which `"leaves"` is not one of the space-separated
tokens makes `parts.index("leaves")` raise, escaping to `parse_lines`. -/
def process_player_leaves_line (line : String) (s : Sess) : Option Sess :=
  let parts := pySplitOn line " "
  match parts.findIdx? (fun t => t == "leaves") with
  | none => none
  | some _ => some s

/-! ## The hand/round state machine (`parse_lines`) -/

/-- The loop state of `parse_lines`: the session plus the Python locals
`hand`, `round_entry`, `game_started`, `hand_started`, `round_number`. -/
structure ParseState where
  sess : Sess
  hand : Option Hand
  round_entry : Option Round
  game_started : Bool
  hand_started : Bool
  round_number : Nat
deriving DecidableEq

/-- The body of the `for line in lines` loop of `parse_lines`: set the flags
on a hand-start marker, skip everything before the first one, then dispatch
on the first matching rule of the `elif` chain; any exception escaping a
handler is caught and answered with `db.rollback()`.  Dispatch-reachable
attribute errors on `None` locals are modelled faithfully: a hand-end
marker with no open hand commits and then raises while logging (so the
flags are not reset), and a round-over marker increments `round_number`
before the failing `hand.id` access. -/
def parse_line_step (game_id : Nat) (st : ParseState) (line : String) : ParseState :=
  let st :=
    if pyStartsWith line "Game #" && pyContains line "starts" then
      { st with game_started := true, hand_started := true }
    else st
  if !st.game_started then st
  else if pyStartsWith line "Game #" && pyContains line "starts" then
    let s := if st.hand.isSome then st.sess.commit else st.sess
    match process_game_start_line line game_id s with
    | none => { st with sess := s.rollback }
    | some (hand, s1) =>
      let (round_entry, s2) := create_new_round hand.id st.round_number s1
      { st with sess := s2, hand := some hand, round_entry := some round_entry }
  else if pyContains line "blinds are" then
    let (small_blind, big_blind) := extract_blinds line
    match st.hand with
    | none => st
    | some h =>
      let h1 := { h with small_blind := small_blind, big_blind_value := big_blind }
      let s := Sess.commit { st.sess with
                             current := st.sess.current.updateHand h.id (fun _ => h1) }
      { st with sess := s, hand := some h1 }
  else if pyStartsWith line "Game #" && pyContains line "ends" then
    let s := st.sess.commit
    match st.hand with
    | none => { st with sess := s.rollback }
    | some _ =>
      { st with sess := s, hand := none, hand_started := false, round_number := 1 }
  else if st.hand_started && (pyStartsWith line "Round" && pyContains line "is over") then
    let n := st.round_number + 1
    match st.hand with
    | none => { st with sess := st.sess.rollback, round_number := n }
    | some h =>
      let (round_entry, s1) := create_new_round h.id n st.sess
      { st with sess := s1, round_entry := some round_entry, round_number := n }
  else if st.hand_started && pyContains line "** Dealing" then
    match process_dealing_line line st.round_entry st.hand st.sess with
    | none => { st with sess := st.sess.rollback }
    | some s1 => { st with sess := s1 }
  else if st.hand_started && pyStartsWith line "Seat" then
    { st with sess := process_seat_line line st.hand st.round_entry st.sess }
  else if st.hand_started && action_keywords.any (fun action => pyContains line action) then
    { st with sess := process_player_action_line line st.round_entry st.hand st.sess }
  else if st.hand_started && pyContains line "shows" then
    { st with sess := process_show_action_line line st.round_entry st.sess }
  else if pyStartsWith line "Player" && pyContains line "leaves the table" then
    match process_player_leaves_line line st.sess with
    | none => { st with sess := st.sess.rollback }
    | some s1 => { st with sess := s1 }
  else st

/-- `parse_lines`: run the per-line state machine over the file's lines and
commit a still-open hand at end of file.  `game_number` only feeds log
messages. -/
def parse_lines (lines : List String) (game_number : String) (game_id : Nat)
    (s : Sess) : Sess :=
  let st0 : ParseState := { sess := s, hand := none, round_entry := none,
                            game_started := false, hand_started := false,
                            round_number := 1 }
  let st := lines.foldl (parse_line_step game_id) st0
  let _ := game_number
  if st.hand.isSome then st.sess.commit else st.sess

/-! ## The stat aggregator (`Player.recalculate_stats`, src/models.py) -/

/-- `Player.recalculate_stats`.  `acts` plays the role of the
`player_actions` table: both `self.actions` and every count query filter it
on `player_id == self.id`.  The two amount sums can hit a `NULL` amount and
raise (`none`); the count queries cannot fail.  `final_chip_count` is
always reassigned; `big_blinds_remaining` is only overwritten when the new
`final_chip_count` is truthy (non-zero). -/
def recalculate_stats (p : Player) (acts : List PlayerAction) : Option Player :=
  match pySum (((acts.filter (fun a => a.player_id == p.id)).filter
          (fun a => a.action == "wins")).map (fun a => a.amount)),
        pySum (((acts.filter (fun a => a.player_id == p.id)).filter
          (fun a => a.action == "loses")).map (fun a => a.amount)) with
  | some total_chips_won, some total_chips_lost =>
    some { p with
      total_chips_won := total_chips_won,
      total_chips_lost := total_chips_lost,
      total_hands_played := ((acts.filter (fun a => a.player_id == p.id)).length : Int),
      vpip_count := (((acts.filter (fun a => a.player_id == p.id)).filter (fun a =>
        a.action == "calls" || a.action == "raises" || a.action == "re-raises")).length : Int),
      pfr_count := (((acts.filter (fun a => a.player_id == p.id)).filter
        (fun a => a.action == "raises")).length : Int),
      uopfr_count := (((acts.filter (fun a => a.player_id == p.id)).filter (fun a =>
        a.action == "raises" && a.position == some "UTG")).length : Int),
      final_chip_count := some (p.chips_start + total_chips_won - total_chips_lost),
      big_blinds_remaining :=
        if (p.chips_start + total_chips_won - total_chips_lost) ≠ 0 then
          ((p.chips_start + total_chips_won - total_chips_lost : Int) : Rat) / 100
        else p.big_blinds_remaining }
  | _, _ => none

/-! ## Spec-side counting definitions

These two definitions follow the words of the claims (not the code); they
are only used to compare the behaviour of `recalculate_stats` against what
the specification asserts about it. -/

/-- Follows the claim's words: the number of the player's `PlayerAction`
rows whose round is the Pre-Flop round and whose action kind is in
{raises, re-raises}. -/
def claimed_preflop_raise_count (p : Player) (acts : List PlayerAction)
    (rounds : List Round) : Nat :=
  (acts.filter (fun a =>
    a.player_id == p.id &&
    (match rounds.find? (fun r => r.id == a.round_id) with
     | some r => r.round_name == "Pre-Flop"
     | none => false) &&
    (a.action == "raises" || a.action == "re-raises"))).length

/-- Follows the claim's words: the number of the player's `PlayerAction`
rows whose round is the Pre-Flop round and whose action kind is exactly
`raises`. -/
def claimed_preflop_unopened_raise_count (p : Player) (acts : List PlayerAction)
    (rounds : List Round) : Nat :=
  (acts.filter (fun a =>
    a.player_id == p.id &&
    (match rounds.find? (fun r => r.id == a.round_id) with
     | some r => r.round_name == "Pre-Flop"
     | none => false) &&
    a.action == "raises")).length

/-! ## General lemmas about the aggregator and the handlers -/

/-- A successful `recalculate_stats` run determines the two amount sums and
the whole result record. -/
theorem recalculate_stats_eq_some (p p' : Player) (acts : List PlayerAction)
    (h : recalculate_stats p acts = some p') :
    ∃ won lost,
      pySum (((acts.filter (fun a => a.player_id == p.id)).filter
        (fun a => a.action == "wins")).map (fun a => a.amount)) = some won ∧
      pySum (((acts.filter (fun a => a.player_id == p.id)).filter
        (fun a => a.action == "loses")).map (fun a => a.amount)) = some lost ∧
      p' = { p with
        total_chips_won := won,
        total_chips_lost := lost,
        total_hands_played := ((acts.filter (fun a => a.player_id == p.id)).length : Int),
        vpip_count := (((acts.filter (fun a => a.player_id == p.id)).filter (fun a =>
          a.action == "calls" || a.action == "raises" || a.action == "re-raises")).length : Int),
        pfr_count := (((acts.filter (fun a => a.player_id == p.id)).filter
          (fun a => a.action == "raises")).length : Int),
        uopfr_count := (((acts.filter (fun a => a.player_id == p.id)).filter (fun a =>
          a.action == "raises" && a.position == some "UTG")).length : Int),
        final_chip_count := some (p.chips_start + won - lost),
        big_blinds_remaining :=
          if (p.chips_start + won - lost) ≠ 0 then
            ((p.chips_start + won - lost : Int) : Rat) / 100
          else p.big_blinds_remaining } := by
  unfold recalculate_stats at h
  split at h
  next won lost hw hl => exact ⟨won, lost, hw, hl, (Option.some.inj h).symm⟩
  next => exact Option.noConfusion h

/-- C5: after a successful `recalculate_stats`, `final_chip_count` equals
`chips_start + total_chips_won - total_chips_lost`, where the two totals are
exactly the sums of the amounts of the player's `wins` and `loses` actions. -/
theorem C5_final_chip_count_formula (p p' : Player) (acts : List PlayerAction)
    (h : recalculate_stats p acts = some p') :
    pySum (((acts.filter (fun a => a.player_id == p.id)).filter
      (fun a => a.action == "wins")).map (fun a => a.amount)) = some p'.total_chips_won ∧
    pySum (((acts.filter (fun a => a.player_id == p.id)).filter
      (fun a => a.action == "loses")).map (fun a => a.amount)) = some p'.total_chips_lost ∧
    p'.final_chip_count = some (p.chips_start + p'.total_chips_won - p'.total_chips_lost) := by
  obtain ⟨won, lost, hw, hl, rfl⟩ := recalculate_stats_eq_some p p' acts h
  exact ⟨hw, hl, rfl⟩

/-- Sample player and actions for the C5 witness: 30 chips won, 30 lost. -/
def w5_p : Player := newPlayer 1 "Carol" 1 2 0

def w5_acts : List PlayerAction :=
  [mkAction 1 1 "wins" (some 30), mkAction 1 1 "loses" (some 30)]

def w5_p' : Player :=
  { w5_p with
    total_chips_won := 30, total_chips_lost := 30, total_hands_played := 2,
    final_chip_count := some 0 }

/-- Witness for C5 at a concrete player with one `wins` and one `loses`
action. -/
theorem C5_final_chip_count_formula_witness :
    pySum (((w5_acts.filter (fun a => a.player_id == w5_p.id)).filter
      (fun a => a.action == "wins")).map (fun a => a.amount)) = some w5_p'.total_chips_won ∧
    pySum (((w5_acts.filter (fun a => a.player_id == w5_p.id)).filter
      (fun a => a.action == "loses")).map (fun a => a.amount)) = some w5_p'.total_chips_lost ∧
    w5_p'.final_chip_count = some (w5_p.chips_start + w5_p'.total_chips_won - w5_p'.total_chips_lost) :=
  C5_final_chip_count_formula w5_p w5_p' w5_acts (by decide)

/-- C6: `recalculate_stats` is idempotent — a second run on the result of a
successful first run, with the action table unchanged, reproduces exactly
the same record (every recomputed field keeps its value). -/
theorem C6_recalculate_stats_idempotent (p p' : Player) (acts : List PlayerAction)
    (h : recalculate_stats p acts = some p') :
    recalculate_stats p' acts = some p' := by
  obtain ⟨won, lost, hw, hl, rfl⟩ := recalculate_stats_eq_some p p' acts h
  unfold recalculate_stats
  rw [show (({ p with
        total_chips_won := won,
        total_chips_lost := lost,
        total_hands_played := ((acts.filter (fun a => a.player_id == p.id)).length : Int),
        vpip_count := (((acts.filter (fun a => a.player_id == p.id)).filter (fun a =>
          a.action == "calls" || a.action == "raises" || a.action == "re-raises")).length : Int),
        pfr_count := (((acts.filter (fun a => a.player_id == p.id)).filter
          (fun a => a.action == "raises")).length : Int),
        uopfr_count := (((acts.filter (fun a => a.player_id == p.id)).filter (fun a =>
          a.action == "raises" && a.position == some "UTG")).length : Int),
        final_chip_count := some (p.chips_start + won - lost),
        big_blinds_remaining :=
          if (p.chips_start + won - lost) ≠ 0 then
            ((p.chips_start + won - lost : Int) : Rat) / 100
          else p.big_blinds_remaining } : Player).id) = p.id from rfl]
  rw [hw, hl]
  simp only [Option.some.injEq]
  congr 1
  by_cases h0 : (p.chips_start + won - lost) ≠ 0
  · simp only [if_pos h0]
  · simp only [if_neg h0]

/-- Sample player and actions for the C6 witness. -/
def w6_p : Player := newPlayer 1 "Dave" 1 3 0

def w6_acts : List PlayerAction :=
  [mkAction 1 1 "raises" (some 40), mkAction 1 1 "folds" (some 0)]

def w6_p' : Player :=
  { w6_p with
    total_hands_played := 2, vpip_count := 1, pfr_count := 1,
    final_chip_count := some 0 }

/-- Witness for C6 at a concrete player with two recorded actions. -/
theorem C6_recalculate_stats_idempotent_witness :
    recalculate_stats w6_p' w6_acts = some w6_p' :=
  C6_recalculate_stats_idempotent w6_p w6_p' w6_acts (by decide)

/-- C10: after a successful `recalculate_stats`, `total_hands_played` is the
number of the player's `PlayerAction` rows of every kind (the count query
filters on `player_id` only), not a count of distinct hands. -/
theorem C10_total_hands_played_counts_all_actions (p p' : Player)
    (acts : List PlayerAction) (h : recalculate_stats p acts = some p') :
    p'.total_hands_played = ((acts.filter (fun a => a.player_id == p.id)).length : Int) := by
  obtain ⟨won, lost, hw, hl, rfl⟩ := recalculate_stats_eq_some p p' acts h
  rfl

/-- Sample for the C10 witness: three actions (`seat`, `shows`, `raises`)
all in the same single hand, so a distinct-hand count would be 1 while the
row count is 3. -/
def w10_p : Player := newPlayer 1 "Erin" 1 4 0

def w10_acts : List PlayerAction :=
  [mkAction 1 1 "seat" (some 0), mkAction 1 1 "shows" (some 0),
   mkAction 1 1 "raises" (some 10)]

def w10_p' : Player :=
  { w10_p with
    total_hands_played := 3, vpip_count := 1, pfr_count := 1,
    final_chip_count := some 0 }

/-- Witness for C10: the `seat` and `shows` rows are counted, giving 3. -/
theorem C10_total_hands_played_counts_all_actions_witness :
    w10_p'.total_hands_played = ((w10_acts.filter (fun a => a.player_id == w10_p.id)).length : Int) :=
  C10_total_hands_played_counts_all_actions w10_p w10_p' w10_acts (by decide)

/-- The identity columns of the `players` table: id, name, game_id,
seat_number, chips_start. -/
def player_identity_fields (ps : List Player) : List (Nat × String × Nat × Int × Int) :=
  ps.map (fun q => (q.id, q.name, q.game_id, q.seat_number, q.chips_start))

/-- The running-statistics update touches only the three counter columns. -/
theorem update_action_stats_identity (q : Player) (a rn : String) :
    (update_action_stats q a rn).id = q.id ∧
    (update_action_stats q a rn).name = q.name ∧
    (update_action_stats q a rn).game_id = q.game_id ∧
    (update_action_stats q a rn).seat_number = q.seat_number ∧
    (update_action_stats q a rn).chips_start = q.chips_start := by
  unfold update_action_stats
  split_ifs <;> exact ⟨rfl, rfl, rfl, rfl, rfl⟩

/-- Mutating one player's counters via `DB.updatePlayer` leaves the identity
columns of every row of the table unchanged. -/
theorem player_identity_fields_updatePlayer (ps : List Player) (pid : Nat)
    (a rn : String) :
    player_identity_fields (ps.map (fun q =>
      if q.id == pid then update_action_stats q a rn else q))
      = player_identity_fields ps := by
  induction ps with
  | nil => rfl
  | cons q rest ih =>
    unfold player_identity_fields at ih ⊢
    simp only [List.map_cons, List.cons.injEq]
    refine ⟨?_, ih⟩
    by_cases hq : (q.id == pid) = true
    · simp only [if_pos hq]
      obtain ⟨h1, h2, h3, h4, h5⟩ := update_action_stats_identity q a rn
      rw [h1, h2, h3, h4, h5]
    · simp only [if_neg hq]

/-- C8: `process_show_action_line` never fabricates a player.  When no
player row carries the extracted name the store is returned untouched (zero
`PlayerAction` rows, zero `Player` rows created); when the player exists,
exactly one `shows` action with amount 0 is appended and nothing else
changes. -/
theorem C8_show_line_never_fabricates_player (line : String) (r : Round) (s : Sess) :
    process_show_action_line line (some r) s =
      match findPlayer s.current (pyStrip ((pySplitOn line "shows").headD "")) with
      | none => s
      | some p => { s with current := { s.current with actions :=
          s.current.actions ++ [mkAction r.id p.id "shows" (some 0)] } } := by
  unfold process_show_action_line
  cases hfp : findPlayer s.current (pyStrip ((pySplitOn line "shows").headD "")) <;>
    simp only [hfp]

/-- C9: player lookup in the two get-or-create handlers is by name alone.
If a player row with the line's name already exists — no matter which game
it was created under — the row is reused and the identity columns
(id, name, game_id, seat_number, chips_start) of every player row are left
exactly as they were. -/
theorem C9_player_lookup_by_name_only (line : String) (r : Round) (hd : Hand) (s : Sess) :
    (∀ n act, extract_player_name_and_action line action_keywords = some (n, act) →
      (findPlayer s.current n).isSome = true →
      player_identity_fields
          ((process_player_action_line line (some r) (some hd) s).current.players)
        = player_identity_fields s.current.players) ∧
    (∀ seat n chips, parse_seat_line line = some (seat, n, chips) →
      (findPlayer s.current n).isSome = true →
      player_identity_fields
          ((process_seat_line line (some hd) (some r) s).current.players)
        = player_identity_fields s.current.players) := by
  constructor
  · intro n act hx hfp
    obtain ⟨p, hp⟩ := Option.isSome_iff_exists.mp hfp
    unfold process_player_action_line
    rw [hx]
    by_cases hn : (n == "") = true
    · simp only [if_pos hn]
    · simp only [if_neg hn, hp]
      exact player_identity_fields_updatePlayer s.current.players p.id act r.round_name
  · intro seat n chips hx hfp
    obtain ⟨p, hp⟩ := Option.isSome_iff_exists.mp hfp
    unfold process_seat_line
    rw [hx]
    simp only [hp]

/-- Store for the C9 witness: a player named Alice created under game 99,
while the current hand belongs to game 1. -/
def w9_alice : Player := newPlayer 1 "Alice" 99 2 500

def w9_sess : Sess :=
  { committed := { DB.empty with players := [w9_alice] },
    current := { DB.empty with players := [w9_alice] } }

def w9_round : Round := { id := 1, hand_id := 1, round_number := 1, round_name := "Pre-Flop" }

def w9_hand : Hand := { id := 1, game_id := 1, hand_number := "7", small_blind := none,
                        big_blind_value := none }

/-- Witness for C9: an action line and a seat line both naming Alice, whose
row was created under a different game; her identity columns survive both
handlers. -/
theorem C9_player_lookup_by_name_only_witness :
    player_identity_fields
        ((process_player_action_line "Alice calls [20 chips]" (some w9_round)
          (some w9_hand) w9_sess).current.players)
      = player_identity_fields w9_sess.current.players ∧
    player_identity_fields
        ((process_seat_line "Seat 3: Alice (999 chips)" (some w9_hand)
          (some w9_round) w9_sess).current.players)
      = player_identity_fields w9_sess.current.players :=
  ⟨(C9_player_lookup_by_name_only "Alice calls [20 chips]" w9_round w9_hand w9_sess).1
      "Alice" "calls" (by decide) (by decide),
   (C9_player_lookup_by_name_only "Seat 3: Alice (999 chips)" w9_round w9_hand w9_sess).2
      3 "Alice" 999 (by decide) (by decide)⟩

/-! ## C7: malformed amounts -/

def c7_round : Round := { id := 1, hand_id := 1, round_number := 1, round_name := "Pre-Flop" }

def c7_hand : Hand := { id := 1, game_id := 1, hand_number := "1", small_blind := none,
                        big_blind_value := none }

/-- C7 counterexample: on the action line `"Alice raises [xyz chips]"` the
amount token is unparseable, `extract_amount` logs and returns `None` —
and yet the line is not skipped: a `PlayerAction` row (with `NULL` amount)
is persisted for it, and a `Player` row is even created. -/
theorem C7_malformed_amount_still_persists_action :
    extract_amount "Alice raises [xyz chips]" = none ∧
    (process_player_action_line "Alice raises [xyz chips]" (some c7_round) (some c7_hand)
        Sess.empty).current.actions = [mkAction c7_round.id 1 "raises" none] ∧
    (process_player_action_line "Alice raises [xyz chips]" (some c7_round) (some c7_hand)
        Sess.empty).current.players.map (fun p => p.name) = ["Alice"] := by
  decide

/-- C7 as amended: for every generic action line with a recognized keyword
and a non-empty player name whose amount is unparseable, the failure is
only logged — processing continues and a `PlayerAction` row with `NULL`
amount is appended for the line. -/
theorem C7_null_amount_action_persisted (line : String) (r : Round) (hd : Hand)
    (s : Sess) (n act : String)
    (h1 : extract_player_name_and_action line action_keywords = some (n, act))
    (h2 : (n == "") = false)
    (h3 : extract_amount line = none) :
    ∃ pid, (process_player_action_line line (some r) (some hd) s).current.actions
      = s.current.actions ++ [mkAction r.id pid act none] := by
  unfold process_player_action_line
  rw [h1]
  simp only [h2, h3, Bool.false_eq_true, if_false]
  cases hfp : findPlayer s.current n with
  | some p => exact ⟨p.id, by simp only [hfp, DB.updatePlayer]⟩
  | none =>
    exact ⟨s.current.players.length + 1,
      by simp only [hfp, DB.updatePlayer, Sess.commit, newPlayer]⟩

def w7_sess : Sess :=
  { committed := { DB.empty with players := [newPlayer 1 "Frank" 1 5 200] },
    current := { DB.empty with players := [newPlayer 1 "Frank" 1 5 200] } }

/-- Witness for the amended C7 at the concrete line
`"Frank raises [12x chips]"` over a store that already knows Frank. -/
theorem C7_null_amount_action_persisted_witness :
    ∃ pid, (process_player_action_line "Frank raises [12x chips]" (some c7_round)
        (some c7_hand) w7_sess).current.actions
      = w7_sess.current.actions ++ [mkAction c7_round.id pid "raises" none] :=
  C7_null_amount_action_persisted "Frank raises [12x chips]" c7_round c7_hand w7_sess
    "Frank" "raises" (by decide) (by decide) (by decide)

/-! ## C1-C4: divergences between the code and the specified behaviour -/

/-- C1: the round counter is not reset when a hand-start marker arrives
while the previous hand is still open.  On the transcript
`["Game #1 starts", "Round 1 is over", "Game #2 starts"]` the second hand's
first round is created with `round_number = 2` and name `"Flop"`, not
Round #1 `"Pre-Flop"` as the claim requires (the counter is only reset by
a hand-end marker). -/
theorem C1_round_counter_not_reset_on_back_to_back_hand_start :
    (parse_lines ["Game #1 starts", "Round 1 is over", "Game #2 starts"] "G1" 1
        Sess.empty).current.hands.map (fun h => (h.id, h.hand_number)) = [(1, "1"), (2, "2")] ∧
    (parse_lines ["Game #1 starts", "Round 1 is over", "Game #2 starts"] "G1" 1
        Sess.empty).current.rounds.map (fun r => (r.hand_id, r.round_number, r.round_name))
      = [(1, 1, "Pre-Flop"), (1, 2, "Flop"), (2, 2, "Flop")] := by
  decide

/-- Sample store for C2: one `raises` action sitting in a Flop round. -/
def c2_player : Player := newPlayer 1 "Alice" 1 (-1) 0

def c2_rounds : List Round := [{ id := 1, hand_id := 1, round_number := 2, round_name := "Flop" }]

def c2_acts : List PlayerAction := [mkAction 1 1 "raises" (some 50)]

/-- C2: `recalculate_stats` sets `pfr_count` to the count of all `raises`
rows regardless of round (and ignoring `re-raises`): for a player whose
only action is a `raises` in a Flop round it produces 1, while the claimed
count of Pre-Flop {raises, re-raises} actions is 0. -/
theorem C2_recalc_pfr_ignores_round :
    (recalculate_stats c2_player c2_acts).map (fun p => p.pfr_count) = some 1 ∧
    claimed_preflop_raise_count c2_player c2_acts c2_rounds = 0 := by
  decide

/-- Sample store for C3: one `raises` action in the Pre-Flop round, with the
`position` column `NULL` as the parser always leaves it. -/
def c3_player : Player := newPlayer 1 "Bob" 1 (-1) 0

def c3_rounds : List Round := [{ id := 1, hand_id := 1, round_number := 1, round_name := "Pre-Flop" }]

def c3_acts : List PlayerAction := [mkAction 1 1 "raises" (some 50)]

/-- C3: `recalculate_stats` counts `uopfr_count` as `raises` rows whose
`position` equals `"UTG"` — a column the parser never writes — so it yields
0 for a player with one Pre-Flop `raises` action, while the claimed count
is 1. -/
theorem C3_recalc_uopfr_requires_utg_position :
    (recalculate_stats c3_player c3_acts).map (fun p => p.uopfr_count) = some 0 ∧
    claimed_preflop_unopened_raise_count c3_player c3_acts c3_rounds = 1 := by
  decide

def c4_round : Round := { id := 1, hand_id := 1, round_number := 2, round_name := "Flop" }

def c4_hand : Hand := { id := 1, game_id := 1, hand_number := "1", small_blind := none,
                        big_blind_value := none }

/-- C4: on the dealing line `"** Dealing Flop ** [Ah Kd 2c]"` the handler
stores the entire bracket content as ONE `BoardCard` row whose `card` value
is the 8-character string `"Ah Kd 2c"` (the column is declared
`String(2)`), instead of three two-character rows. -/
theorem C4_dealing_line_single_board_card :
    (process_dealing_line "** Dealing Flop ** [Ah Kd 2c]" (some c4_round) (some c4_hand)
        Sess.empty).map (fun s => s.current.board_cards)
      = some [{ round_id := c4_round.id, card := "Ah Kd 2c" }] ∧
    "Ah Kd 2c".length = 8 := by
  decide

end PokerLearn
